import Mathlib

/-!  Verification model of the chat API route (app/api/chat/route.ts).

The route classifies a prompt into text / image / audio intent with
case-insensitive keyword regexes, keeps a TTL'd response cache keyed by
`${type}:${prompt}`, calls the OpenAI provider, and maps errors to a fixed
taxonomy.  Upstream provider calls are modelled by an `Env` of oracles and
every model function additionally returns the list of upstream calls it
made (`trace`) together with the updated cache.  -/

/-! ## Character and substring utilities (JS `RegExp.test` with /i, `String.includes`) -/

/-- Lower-case an ASCII code point, as the /i regex flag does for the
ASCII-only patterns used in the route. -/
def lowerCode (n : Nat) : Nat :=
  if 65 ≤ n ∧ n ≤ 90 then n + 32 else n

/-- The code points of a string, ASCII-lower-cased. -/
def lowerCodes (s : String) : List Nat :=
  s.data.map (fun c => lowerCode c.toNat)

/-- List prefix test over code points. -/
def isPre : List Nat → List Nat → Bool
  | [], _ => true
  | _ :: _, [] => false
  | a :: as, b :: bs => a = b && isPre as bs

/-- Contiguous-subsequence (substring) test over code points. -/
def containsSeq (needle : List Nat) : List Nat → Bool
  | [] => isPre needle []
  | c :: cs => isPre needle (c :: cs) || containsSeq needle cs

/-- JS `/alt1|alt2|.../i.test s`: some alternative occurs in `s`,
case-insensitively.  Every pattern in the route is a plain alternation of
ASCII literals, so the test is substring containment after lower-casing. -/
def regexTestI (alts : List String) (s : String) : Bool :=
  alts.any (fun a => containsSeq (a.data.map (fun c => c.toNat)) (lowerCodes s))

/-- JS `s.includes sub` (case-sensitive substring containment). -/
def jsIncludes (s : String) (sub : String) : Bool :=
  containsSeq (sub.data.map (fun c => c.toNat)) (s.data.map (fun c => c.toNat))

/-- JS `s.trim` = "" test helper: drop ASCII whitespace on both ends. -/
def jsTrim (s : String) : String :=
  String.mk (((s.data.dropWhile Char.isWhitespace).reverse.dropWhile Char.isWhitespace).reverse)

/-- JS `xs.slice (-n)`: the last `n` elements (all of them when shorter). -/
def jsTakeLast (n : Nat) (xs : List α) : List α :=
  xs.drop (xs.length - n)

/-! ## Error message taxonomy (ERROR_MESSAGES) -/

namespace ERROR_MESSAGES

def MISSING_API_KEY : String := "Missing API key in server configuration."

def INVALID_REQUEST : String := "Invalid request format or empty message."

def PROCESSING_ERROR : String := "An error occurred while processing your request."

def MEDIA_ERROR : String := "Unable to process the uploaded media. Please try again."

def NO_RESPONSE : String := "Unable to generate a response. Please try again."

def MODEL_ERROR : String := "The language model is currently unavailable. Please try again later."

def NETWORK_ERROR : String := "Network connection error. Please check your connection and try again."

def INVALID_RESPONSE : String := "Received an invalid response from the model."

def RATE_LIMIT : String := "Rate limit exceeded. Please try again in a moment."

def INVALID_API_KEY : String := "Invalid API key. Please check your API key configuration."

def CONTENT_POLICY : String := "Your request could not be processed due to content policy restrictions."

def SAFETY_ERROR : String := "The request was flagged by our safety system."

def REGION_ERROR : String := "OpenAI services are not available in your region. Please use a VPN or contact support."

end ERROR_MESSAGES

/-! ## Intent classification regexes -/

def imageActionAlts : List String :=
  ["generate", "create", "make", "draw", "show", "give me", "imagine"]

def imageSubjectAlts : List String :=
  ["image", "picture", "photo", "artwork", "drawing", "illustration", "logo", "icon"]

def audioActionAlts : List String :=
  ["generate", "create", "make", "speak", "say", "tell", "read"]

def audioSubjectAlts : List String :=
  ["audio", "speech", "voice", "sound", "speak", "talk"]

/-- `isImageRequest` of `generateText`: both image regexes match the prompt. -/
def isImageRequest (prompt : String) : Bool :=
  regexTestI imageActionAlts prompt && regexTestI imageSubjectAlts prompt

/-- `isAudioRequest` of `generateText`: both audio regexes match the prompt. -/
def isAudioRequest (prompt : String) : Bool :=
  regexTestI audioActionAlts prompt && regexTestI audioSubjectAlts prompt

inductive Intent where
  | image
  | audio
  | text
deriving DecidableEq

/-- The branch order of `generateText`: the image test runs first, then the
audio test, and everything else is a plain text request. -/
def classifyIntent (prompt : String) : Intent :=
  if isImageRequest prompt then Intent.image
  else if isAudioRequest prompt then Intent.audio
  else Intent.text

/-! ## JSON values and `JSON.parse` -/

inductive Json where
  | null
  | bool (b : Bool)
  | num (q : Rat)
  | str (s : String)
  | arr (elems : List Json)
  | obj (fields : List (String × Json))

/-- JSON insignificant whitespace: space, tab, line feed, carriage return. -/
def skipWs : List Char → List Char :=
  List.dropWhile (fun c => c = ' ' || c = '\t' || c = '\n' || c = '\r')

/-- The value of a hexadecimal digit, for `\u` escapes. -/
def hexVal (c : Char) : Option Nat :=
  if '0' ≤ c ∧ c ≤ '9' then some (c.toNat - 48)
  else if 'a' ≤ c ∧ c ≤ 'f' then some (c.toNat - 87)
  else if 'A' ≤ c ∧ c ≤ 'F' then some (c.toNat - 55)
  else none

/-- A JSON string body after the opening quote: raw characters below
U+0020 are rejected, and exactly the JSON escapes are accepted
(quote, backslash, slash, b, f, n, r, t, and u with four hex digits). -/
def parseStringBody (acc : List Char) : List Char → Option (String × List Char)
  | [] => none
  | '"' :: rest => some (String.mk acc.reverse, rest)
  | '\\' :: c :: rest =>
      if c = '"' then parseStringBody ('"' :: acc) rest
      else if c = '\\' then parseStringBody ('\\' :: acc) rest
      else if c = '/' then parseStringBody ('/' :: acc) rest
      else if c = 'b' then parseStringBody ('\x08' :: acc) rest
      else if c = 'f' then parseStringBody ('\x0c' :: acc) rest
      else if c = 'n' then parseStringBody ('\n' :: acc) rest
      else if c = 'r' then parseStringBody ('\r' :: acc) rest
      else if c = 't' then parseStringBody ('\t' :: acc) rest
      else if c = 'u' then
        match rest with
        | h1 :: h2 :: h3 :: h4 :: r2 =>
            match hexVal h1, hexVal h2, hexVal h3, hexVal h4 with
            | some v1, some v2, some v3, some v4 =>
                parseStringBody (Char.ofNat (((v1 * 16 + v2) * 16 + v3) * 16 + v4) :: acc) r2
            | _, _, _, _ => none
        | _ => none
      else none
  | c :: rest => if c.toNat < 32 then none else parseStringBody (c :: acc) rest

/-- The longest leading run of decimal digits. -/
def takeDigits : List Char → List Char × List Char
  | [] => ([], [])
  | c :: rest =>
      if '0' ≤ c ∧ c ≤ '9' then
        let p := takeDigits rest
        (c :: p.1, p.2)
      else ([], c :: rest)

def digitsToNat (ds : List Char) : Nat :=
  ds.foldl (fun a c => a * 10 + (c.toNat - 48)) 0

/-- The optional fraction and exponent of a JSON number, applied to the
already-parsed integer part: `.` requires at least one digit, `e`/`E`
allows a sign and requires at least one digit. -/
def parseFracExp (neg : Bool) (intPart : Nat) (input : List Char) :
    Option (Rat × List Char) :=
  let fr : Option (Nat × Nat × List Char) :=
    match input with
    | '.' :: rest =>
        let p := takeDigits rest
        if p.1.isEmpty then none else some (digitsToNat p.1, p.1.length, p.2)
    | _ => some (0, 0, input)
  match fr with
  | none => none
  | some (fracVal, fracLen, r2) =>
      let ex : Option (Int × List Char) :=
        match r2 with
        | e :: rest =>
            if e = 'e' ∨ e = 'E' then
              let sr : Bool × List Char :=
                match rest with
                | '+' :: r => (false, r)
                | '-' :: r => (true, r)
                | _ => (false, rest)
              let p := takeDigits sr.2
              if p.1.isEmpty then none
              else
                some ((if sr.1 then -(digitsToNat p.1 : Int) else (digitsToNat p.1 : Int)),
                  p.2)
            else some (0, r2)
        | [] => some (0, [])
      match ex with
      | none => none
      | some (expVal, r5) =>
          let mant : Int := ((intPart * 10 ^ fracLen + fracVal : Nat) : Int)
          let mant := if neg then -mant else mant
          let e2 : Int := expVal - (fracLen : Int)
          some (if 0 ≤ e2 then mkRat (mant * ((10 ^ e2.toNat : Nat) : Int)) 1
            else mkRat mant (10 ^ (-e2).toNat), r5)

/-- A JSON number: optional minus, an integer part with no leading zero,
then the optional fraction and exponent.  The exact decimal value is
kept as a rational. -/
def parseNumber (input : List Char) : Option (Rat × List Char) :=
  let mr : Bool × List Char :=
    match input with
    | '-' :: rest => (true, rest)
    | _ => (false, input)
  match mr.2 with
  | c :: rest =>
      if c = '0' then
        match rest with
        | d :: _ =>
            if '0' ≤ d ∧ d ≤ '9' then none else parseFracExp mr.1 0 rest
        | [] => parseFracExp mr.1 0 []
      else if '1' ≤ c ∧ c ≤ '9' then
        let p := takeDigits rest
        parseFracExp mr.1 (digitsToNat (c :: p.1)) p.2
      else none
  | [] => none

mutual

def parseValue : Nat → List Char → Option (Json × List Char)
  | 0, _ => none
  | fuel + 1, input =>
    match skipWs input with
    | 'n' :: 'u' :: 'l' :: 'l' :: rest => some (Json.null, rest)
    | 't' :: 'r' :: 'u' :: 'e' :: rest => some (Json.bool true, rest)
    | 'f' :: 'a' :: 'l' :: 's' :: 'e' :: rest => some (Json.bool false, rest)
    | '"' :: rest => (parseStringBody [] rest).map (fun p => (Json.str p.1, p.2))
    | '[' :: rest =>
        match skipWs rest with
        | ']' :: r2 => some (Json.arr [], r2)
        | r2 => parseArrayRest fuel r2 []
    | '{' :: rest =>
        match skipWs rest with
        | '}' :: r2 => some (Json.obj [], r2)
        | r2 => parseObjRest fuel r2 []
    | t => (parseNumber t).map (fun p => (Json.num p.1, p.2))

def parseArrayRest : Nat → List Char → List Json → Option (Json × List Char)
  | 0, _, _ => none
  | fuel + 1, input, acc =>
    match parseValue fuel input with
    | none => none
    | some (v, rest) =>
        match skipWs rest with
        | ',' :: r2 => parseArrayRest fuel r2 (v :: acc)
        | ']' :: r2 => some (Json.arr (v :: acc).reverse, r2)
        | _ => none

def parseObjRest : Nat → List Char → List (String × Json) → Option (Json × List Char)
  | 0, _, _ => none
  | fuel + 1, input, acc =>
    match skipWs input with
    | '"' :: rest =>
        match parseStringBody [] rest with
        | none => none
        | some (key, r2) =>
            match skipWs r2 with
            | ':' :: r3 =>
                match parseValue fuel r3 with
                | none => none
                | some (v, r4) =>
                    match skipWs r4 with
                    | ',' :: r5 => parseObjRest fuel r5 ((key, v) :: acc)
                    | '}' :: r5 => some (Json.obj ((key, v) :: acc).reverse, r5)
                    | _ => none
            | _ => none
    | _ => none

end

/-- Model of the JavaScript builtin `JSON.parse`, following the JSON
grammar it implements: insignificant whitespace, `null`/`true`/`false`,
numbers (optional minus, integer part without leading zeros, optional
fraction and exponent), strings with exactly the JSON escapes (including
`\u` with four hex digits) and no raw characters below U+0020, arrays
and objects.  A parse failure corresponds to a JS `SyntaxError`.  Two
abstractions that no claim observes: the numeric value is kept as the
exact decimal rational where JS rounds it to a binary64 float, and a
`\u` escape denoting a lone surrogate is approximated by a placeholder
character (JS keeps the unpaired code unit) — in both cases the
accept/reject boundary is unchanged. -/
def jsonParse (s : String) : Except String Json :=
  match parseValue (2 * s.length + 8) s.data with
  | some (v, rest) =>
      if (skipWs rest).isEmpty then Except.ok v
      else Except.error "Unexpected token in JSON"
  | none => Except.error "Unexpected token in JSON"

/-! ## Response cache -/

structure CacheEntry where
  data : String
  timestamp : Int
deriving DecidableEq

/-- The `responseCache` map, as an insertion-ordered association list
(JS `Map` overwrites in place and appends new keys at the end). -/
abbrev Cache := List (String × CacheEntry)

def CACHE_TTL : Int := 5 * 60 * 1000

/-- `generateCacheKey prompt type` returns the template string `type:prompt`. -/
def generateCacheKey (prompt : String) (type : String) : String :=
  type ++ ":" ++ prompt

def cacheGet : Cache → String → Option CacheEntry
  | [], _ => none
  | (k, e) :: rest, key => if k = key then some e else cacheGet rest key

def cacheSet (c : Cache) (key : String) (e : CacheEntry) : Cache :=
  match c with
  | [] => [(key, e)]
  | (k, e0) :: rest =>
      if k = key then (key, e) :: rest else (k, e0) :: cacheSet rest key e

/-- The read path `cached && Date.now() - cached.timestamp < CACHE_TTL`:
a hit only when the entry exists and is younger than the TTL; expired
entries stay in the map. -/
def cacheLookup (c : Cache) (key : String) (now : Int) : Option String :=
  match cacheGet c key with
  | some e => if now - e.timestamp < CACHE_TTL then some e.data else none
  | none => none

/-! ## Errors thrown at run time -/

/-- A thrown JS value as the route inspects it: an `OpenAI.APIError`
(with `status`, `code` and inherited `message`), any other `Error`
(only its `message` is read), or a non-`Error` throwable. -/
inductive JsError where
  | apiError (status : Option Nat) (code : Option String) (message : String)
  | jsError (message : String)
  | nonError
deriving DecidableEq

def regionCode : String := "unsupported_country_region_territory"

/-- `error instanceof OpenAI.APIError && error.code === 'unsupported_country_region_territory'`. -/
def isRegionApiError : JsError → Bool
  | JsError.apiError _ code _ => code = some regionCode
  | _ => false

/-- `error instanceof Error && error.message === ERROR_MESSAGES.REGION_ERROR`
(an `APIError` is an `Error`, so its message is inspected too). -/
def isRegionErrorMessage : JsError → Bool
  | JsError.apiError _ _ m => m = ERROR_MESSAGES.REGION_ERROR
  | JsError.jsError m => m = ERROR_MESSAGES.REGION_ERROR
  | JsError.nonError => false

/-! ## Upstream provider oracles and call traces -/

inductive Voice where
  | alloy
  | echo
  | fable
  | onyx
  | nova
  | shimmer
deriving DecidableEq

/-- The voice selection of `generateAudio`. -/
def chooseVoice (text : String) : Voice :=
  if jsIncludes text "?" then Voice.shimmer
  else if text.length > 200 then Voice.onyx
  else if jsIncludes text "!" then Voice.fable
  else Voice.nova

/-- One upstream provider call, as recorded in a trace. -/
inductive UpCall where
  | chat (messages : List Json)
  | image (prompt : String)
  | speech (voice : Voice) (input : String)

/-- The provider (OpenAI client) as oracles.  `chatCompletion` returns
`choices[0]?.message?.content` (`none` when absent), `imagesGenerate`
returns `data[0]?.b64_json`, `speechCreate` returns the base64 of the mp3
body; each may instead throw. -/
structure Env where
  chatCompletion : List Json → Except JsError (Option String)
  imagesGenerate : String → Except JsError (Option String)
  speechCreate : Voice → String → Except JsError String

/-- Result of a generation step: the value or the thrown error, the cache
after the step, and the upstream calls made. -/
structure GenResult (α : Type) where
  res : Except JsError α
  cache : Cache
  trace : List UpCall

/-- The normalized response envelope (`{type, content, url?}`). -/
structure Envelope where
  type : String
  content : String
  url : Option String
deriving DecidableEq

/-! ## generateImage / generateAudio -/

/-- `generateImage`: cache lookup under `image:prompt`, then the DALL-E
call; its catch converts a region-restriction `APIError` into
`Error(REGION_ERROR)` and every other failure (including a missing
`b64_json`, thrown as `NO_RESPONSE` inside the try) into `Error(MEDIA_ERROR)`. -/
def generateImage (env : Env) (now : Int) (cache : Cache) (prompt : String) : GenResult String :=
  let cacheKey := generateCacheKey prompt "image"
  match cacheLookup cache cacheKey now with
  | some data => ⟨Except.ok data, cache, []⟩
  | none =>
    match env.imagesGenerate prompt with
    | Except.ok (some base64Image) =>
        ⟨Except.ok base64Image, cacheSet cache cacheKey ⟨base64Image, now⟩, [UpCall.image prompt]⟩
    | Except.ok none =>
        ⟨Except.error (JsError.jsError ERROR_MESSAGES.MEDIA_ERROR), cache, [UpCall.image prompt]⟩
    | Except.error e =>
        if isRegionApiError e then
          ⟨Except.error (JsError.jsError ERROR_MESSAGES.REGION_ERROR), cache, [UpCall.image prompt]⟩
        else
          ⟨Except.error (JsError.jsError ERROR_MESSAGES.MEDIA_ERROR), cache, [UpCall.image prompt]⟩

/-- `generateAudio`: cache lookup under `audio:text`, voice selection,
then the TTS call; the catch mirrors `generateImage`'s. -/
def generateAudio (env : Env) (now : Int) (cache : Cache) (text : String) : GenResult String :=
  let cacheKey := generateCacheKey text "audio"
  match cacheLookup cache cacheKey now with
  | some data => ⟨Except.ok data, cache, []⟩
  | none =>
    let voice := chooseVoice text
    match env.speechCreate voice text with
    | Except.ok base64Audio =>
        ⟨Except.ok base64Audio, cacheSet cache cacheKey ⟨base64Audio, now⟩, [UpCall.speech voice text]⟩
    | Except.error e =>
        if isRegionApiError e then
          ⟨Except.error (JsError.jsError ERROR_MESSAGES.REGION_ERROR), cache, [UpCall.speech voice text]⟩
        else
          ⟨Except.error (JsError.jsError ERROR_MESSAGES.MEDIA_ERROR), cache, [UpCall.speech voice text]⟩

/-! ## generateText -/

def mkUserMsg (content : String) : Json :=
  Json.obj [("role", Json.str "user"), ("content", Json.str content)]

def mkSystemMsg (content : String) (name : String) : Json :=
  Json.obj [("role", Json.str "system"), ("content", Json.str content), ("name", Json.str name)]

def imageSystemContent : String :=
  "Create a concise image description for DALL-E 3. Focus on key visual elements. Keep it under 100 words."

def audioSystemContent : String :=
  "Generate a brief, natural response for text-to-speech. Keep it under 100 words."

def imageBranchMessages (recent : List Json) (prompt : String) : List Json :=
  recent ++ [mkUserMsg prompt, mkSystemMsg imageSystemContent "imagePrompt"]

def audioBranchMessages (recent : List Json) (prompt : String) : List Json :=
  recent ++ [mkUserMsg prompt, mkSystemMsg audioSystemContent "audioPrompt"]

def textBranchMessages (recent : List Json) (prompt : String) : List Json :=
  recent ++ [mkUserMsg prompt]

/-- The V8 `TypeError` message for calling `slice` on a value without it. -/
def sliceTypeErrorMessage : String := "history.slice is not a function"

def nullSliceErrorMessage : String := "Cannot read properties of null (reading 'slice')"

/-- `history.slice (-5)` followed by the spread `[...recentHistory, ...]`.
On an array it keeps the last 5 entries; a JS string also has `slice`, and
spreading the sliced string yields its characters as one-character strings;
any other value throws a `TypeError`. -/
def recentHistoryOf : Json → Except JsError (List Json)
  | Json.arr xs => Except.ok (jsTakeLast 5 xs)
  | Json.str s => Except.ok ((jsTakeLast 5 s.data).map (fun c => Json.str (String.mk [c])))
  | Json.null => Except.error (JsError.jsError nullSliceErrorMessage)
  | _ => Except.error (JsError.jsError sliceTypeErrorMessage)

/-- The outer catch of `generateText`: a region-restriction `APIError`
degrades to a text envelope, everything else is rethrown. -/
def outerCatch (cache : Cache) (trace : List UpCall) (e : JsError) : GenResult Envelope :=
  if isRegionApiError e then
    ⟨Except.ok ⟨"text", ERROR_MESSAGES.REGION_ERROR, none⟩, cache, trace⟩
  else ⟨Except.error e, cache, trace⟩

/-- The inner catch of the image and audio branches: an `Error` whose
message is the region-error text yields the text envelope; anything else
is rethrown into the outer catch. -/
def branchCatch (cache : Cache) (trace : List UpCall) (e : JsError) : GenResult Envelope :=
  if isRegionErrorMessage e then
    ⟨Except.ok ⟨"text", ERROR_MESSAGES.REGION_ERROR, none⟩, cache, trace⟩
  else outerCatch cache trace e

/-- The image branch of `generateText`: prompt-compression completion,
then `generateImage`, inside the branch's try/catch. -/
def imageBranch (env : Env) (now : Int) (cache : Cache) (prompt : String)
    (recentHistory : List Json) : GenResult Envelope :=
  let msgs := imageBranchMessages recentHistory prompt
  match env.chatCompletion msgs with
  | Except.error e => branchCatch cache [UpCall.chat msgs] e
  | Except.ok none =>
      branchCatch cache [UpCall.chat msgs] (JsError.jsError ERROR_MESSAGES.NO_RESPONSE)
  | Except.ok (some imagePrompt) =>
      let g := generateImage env now cache imagePrompt
      match g.res with
      | Except.ok imageBase64 =>
          ⟨Except.ok ⟨"image", "Here's the generated image based on your request.",
              some ("data:image/png;base64," ++ imageBase64)⟩,
            g.cache, UpCall.chat msgs :: g.trace⟩
      | Except.error e => branchCatch g.cache (UpCall.chat msgs :: g.trace) e

/-- The audio branch of `generateText`: spoken-reply completion, then
`generateAudio`, inside the branch's try/catch. -/
def audioBranch (env : Env) (now : Int) (cache : Cache) (prompt : String)
    (recentHistory : List Json) : GenResult Envelope :=
  let msgs := audioBranchMessages recentHistory prompt
  match env.chatCompletion msgs with
  | Except.error e => branchCatch cache [UpCall.chat msgs] e
  | Except.ok none =>
      branchCatch cache [UpCall.chat msgs] (JsError.jsError ERROR_MESSAGES.NO_RESPONSE)
  | Except.ok (some textContent) =>
      let g := generateAudio env now cache textContent
      match g.res with
      | Except.ok audioBase64 =>
          ⟨Except.ok ⟨"audio", textContent, some ("data:audio/mp3;base64," ++ audioBase64)⟩,
            g.cache, UpCall.chat msgs :: g.trace⟩
      | Except.error e => branchCatch g.cache (UpCall.chat msgs :: g.trace) e

/-- The plain-text branch of `generateText` (no inner try/catch): a
missing completion content throws `NO_RESPONSE` into the outer catch. -/
def textBranch (env : Env) (now : Int) (cache : Cache) (prompt : String)
    (recentHistory : List Json) : GenResult Envelope :=
  let msgs := textBranchMessages recentHistory prompt
  match env.chatCompletion msgs with
  | Except.error e => outerCatch cache [UpCall.chat msgs] e
  | Except.ok none =>
      outerCatch cache [UpCall.chat msgs] (JsError.jsError ERROR_MESSAGES.NO_RESPONSE)
  | Except.ok (some content) =>
      ⟨Except.ok ⟨"text", content, none⟩, cache, [UpCall.chat msgs]⟩

/-- `generateText`: trims the history, tests the image regexes first and
the audio regexes second, and runs the matching branch inside the outer
try/catch. -/
def generateText (env : Env) (now : Int) (cache : Cache) (prompt : String)
    (history : Json) : GenResult Envelope :=
  match recentHistoryOf history with
  | Except.error e => outerCatch cache [] e
  | Except.ok recentHistory =>
      if isImageRequest prompt then imageBranch env now cache prompt recentHistory
      else if isAudioRequest prompt then audioBranch env now cache prompt recentHistory
      else textBranch env now cache prompt recentHistory

/-! ## The POST handler -/

/-- A `formData.get` result: a string field, a file, or absent (`null`). -/
inductive FormVal where
  | str (s : String)
  | file
deriving DecidableEq

structure PostReq where
  apiKeyPresent : Bool
  message : Option FormVal
  history : Option FormVal

inductive RespBody where
  | success (envelope : Envelope)
  | failure (error : String)
deriving DecidableEq

structure PostOut where
  body : RespBody
  status : Nat
  cache : Cache
  trace : List UpCall

/-- The history parsing block of `POST`: only a non-empty string field is
parsed (`historyStr &&` is falsy on the empty string), and a parse error
leaves the history as `[]`. -/
def parseHistory : Option FormVal → Json
  | some (FormVal.str s) =>
      if s = "" then Json.arr []
      else
        match jsonParse s with
        | Except.ok v => v
        | Except.error _ => Json.arr []
  | _ => Json.arr []

/-- The inner catch of `POST`: an `APIError` is mapped through the
taxonomy (content-policy violations return 400 at once; 401, 429 and the
region code override the default model-error text; the HTTP status is
`error.status || 500`); any other `Error` is surfaced with its own
message and 500; a non-`Error` throwable falls back to the generic
processing-failure message with 500. -/
def handleGenerationError (e : JsError) (cache : Cache) (trace : List UpCall) : PostOut :=
  match e with
  | JsError.apiError st code _ =>
      let status := match st with
        | some s => if s = 0 then 500 else s
        | none => 500
      if code = some "content_policy_violation" then
        ⟨RespBody.failure ERROR_MESSAGES.CONTENT_POLICY, 400, cache, trace⟩
      else
        let errorMessage :=
          if code = some regionCode then ERROR_MESSAGES.REGION_ERROR
          else if st = some 429 then ERROR_MESSAGES.RATE_LIMIT
          else if st = some 401 then ERROR_MESSAGES.INVALID_API_KEY
          else ERROR_MESSAGES.MODEL_ERROR
        ⟨RespBody.failure errorMessage, status, cache, trace⟩
  | JsError.jsError m => ⟨RespBody.failure m, 500, cache, trace⟩
  | JsError.nonError => ⟨RespBody.failure ERROR_MESSAGES.PROCESSING_ERROR, 500, cache, trace⟩

/-- The `POST` route handler: credential check, message validation,
history parsing, generation, and error mapping. -/
def POST (env : Env) (now : Int) (cache : Cache) (req : PostReq) : PostOut :=
  if !req.apiKeyPresent then
    ⟨RespBody.failure ERROR_MESSAGES.MISSING_API_KEY, 500, cache, []⟩
  else
    match req.message with
    | some (FormVal.str message) =>
        if jsTrim message = "" then
          ⟨RespBody.failure ERROR_MESSAGES.INVALID_REQUEST, 400, cache, []⟩
        else
          let history := parseHistory req.history
          let g := generateText env now cache message history
          match g.res with
          | Except.ok response => ⟨RespBody.success response, 200, g.cache, g.trace⟩
          | Except.error e => handleGenerationError e g.cache g.trace
    | _ => ⟨RespBody.failure ERROR_MESSAGES.INVALID_REQUEST, 400, cache, []⟩

/-! ## Concrete environments used in witnesses and counterexamples -/

/-- An environment whose oracles all throw a non-`Error` value. -/
def throwingEnv : Env :=
  ⟨fun _ => Except.error JsError.nonError,
   fun _ => Except.error JsError.nonError,
   fun _ _ => Except.error JsError.nonError⟩

/-- An environment that answers every completion from the message count,
so that histories of different lengths yield different derived prompts. -/
def historySensitiveEnv : Env :=
  ⟨fun msgs => Except.ok (some (if msgs.length = 2 then "a gray cat" else "a black cat")),
   fun _ => Except.ok (some "IMGDATA"),
   fun _ _ => Except.ok "AUDDATA"⟩

/-- An environment whose media oracles throw a plain (non-API) error. -/
def mediaFailEnv : Env :=
  ⟨fun _ => Except.ok (some "a cat"),
   fun _ => Except.error (JsError.jsError "boom"),
   fun _ _ => Except.error (JsError.jsError "boom")⟩

/-- An environment that always completes with a fixed text. -/
def helloEnv : Env :=
  ⟨fun _ => Except.ok (some "hello there"),
   fun _ => Except.ok (some "I"),
   fun _ _ => Except.ok "A"⟩

/-- An environment whose media oracles throw the region-restriction
`APIError`. -/
def regionBlockedEnv : Env :=
  ⟨fun _ => Except.ok (some "IP"),
   fun _ => Except.error (JsError.apiError (some 403) (some regionCode) "blocked"),
   fun _ _ => Except.error (JsError.apiError (some 403) (some regionCode) "blocked")⟩

/-! ## Helper lemmas -/

theorem cacheGet_cacheSet_self (c : Cache) (k : String) (e : CacheEntry) :
    cacheGet (cacheSet c k e) k = some e := by
  induction c with
  | nil => simp [cacheSet, cacheGet]
  | cons kv rest ih =>
      obtain ⟨k0, e0⟩ := kv
      by_cases h : k0 = k
      · simp [cacheSet, h, cacheGet]
      · simp [cacheSet, h, cacheGet, ih]

theorem generateImage_trace (env : Env) (now : Int) (cache : Cache) (p : String) :
    (generateImage env now cache p).trace = [] ∨
      (generateImage env now cache p).trace = [UpCall.image p] := by
  unfold generateImage
  cases h : cacheLookup cache (generateCacheKey p "image") now with
  | some data => simp [h]
  | none =>
      cases h2 : env.imagesGenerate p with
      | ok b => cases b <;> simp [h, h2]
      | error e => by_cases hr : isRegionApiError e <;> simp [h, h2, hr]

theorem generateAudio_trace (env : Env) (now : Int) (cache : Cache) (t : String) :
    (generateAudio env now cache t).trace = [] ∨
      (generateAudio env now cache t).trace = [UpCall.speech (chooseVoice t) t] := by
  unfold generateAudio
  cases h : cacheLookup cache (generateCacheKey t "audio") now with
  | some data => simp [h]
  | none =>
      cases h2 : env.speechCreate (chooseVoice t) t with
      | ok b => simp [h, h2]
      | error e => by_cases hr : isRegionApiError e <;> simp [h, h2, hr]

theorem outerCatch_trace (c : Cache) (tr : List UpCall) (e : JsError) :
    (outerCatch c tr e).trace = tr := by
  unfold outerCatch; split <;> rfl

theorem branchCatch_trace (c : Cache) (tr : List UpCall) (e : JsError) :
    (branchCatch c tr e).trace = tr := by
  unfold branchCatch
  split
  · rfl
  · exact outerCatch_trace c tr e

theorem outerCatch_ok (c : Cache) (tr : List UpCall) (er : JsError) (e : Envelope)
    (h : (outerCatch c tr er).res = Except.ok e) :
    e = ⟨"text", ERROR_MESSAGES.REGION_ERROR, none⟩ := by
  unfold outerCatch at h
  by_cases hr : isRegionApiError er <;> simp [hr] at h
  exact h.symm

theorem branchCatch_ok (c : Cache) (tr : List UpCall) (er : JsError) (e : Envelope)
    (h : (branchCatch c tr er).res = Except.ok e) :
    e = ⟨"text", ERROR_MESSAGES.REGION_ERROR, none⟩ := by
  unfold branchCatch at h
  by_cases hr : isRegionErrorMessage er
  · simp [hr] at h
    exact h.symm
  · simp [hr] at h
    exact outerCatch_ok c tr er e h

theorem imageBranch_ok_type (env : Env) (now : Int) (cache : Cache) (p : String)
    (r : List Json) (e : Envelope)
    (h : (imageBranch env now cache p r).res = Except.ok e) :
    e.type = "image" ∨ e.type = "text" := by
  unfold imageBranch at h
  cases hc : env.chatCompletion (imageBranchMessages r p) with
  | error er =>
      simp [hc] at h
      rw [branchCatch_ok _ _ _ _ h]
      right; rfl
  | ok o =>
      cases o with
      | none =>
          simp [hc] at h
          rw [branchCatch_ok _ _ _ _ h]
          right; rfl
      | some ip =>
          simp [hc] at h
          cases hg : (generateImage env now cache ip).res with
          | ok b =>
              simp [hg] at h
              rw [← h]
              left; rfl
          | error er =>
              simp [hg] at h
              rw [branchCatch_ok _ _ _ _ h]
              right; rfl

theorem audioBranch_ok_type (env : Env) (now : Int) (cache : Cache) (p : String)
    (r : List Json) (e : Envelope)
    (h : (audioBranch env now cache p r).res = Except.ok e) :
    e.type = "audio" ∨ e.type = "text" := by
  unfold audioBranch at h
  cases hc : env.chatCompletion (audioBranchMessages r p) with
  | error er =>
      simp [hc] at h
      rw [branchCatch_ok _ _ _ _ h]
      right; rfl
  | ok o =>
      cases o with
      | none =>
          simp [hc] at h
          rw [branchCatch_ok _ _ _ _ h]
          right; rfl
      | some tc =>
          simp [hc] at h
          cases hg : (generateAudio env now cache tc).res with
          | ok b =>
              simp [hg] at h
              rw [← h]
              left; rfl
          | error er =>
              simp [hg] at h
              rw [branchCatch_ok _ _ _ _ h]
              right; rfl

theorem generateImage_no_chat (env : Env) (now : Int) (cache : Cache) (p : String)
    (msgs : List Json) : UpCall.chat msgs ∉ (generateImage env now cache p).trace := by
  rcases generateImage_trace env now cache p with h | h <;> simp [h]

theorem generateAudio_no_chat (env : Env) (now : Int) (cache : Cache) (t : String)
    (msgs : List Json) : UpCall.chat msgs ∉ (generateAudio env now cache t).trace := by
  rcases generateAudio_trace env now cache t with h | h <;> simp [h]

theorem imageBranch_chat (env : Env) (now : Int) (cache : Cache) (p : String)
    (r : List Json) (msgs : List Json)
    (h : UpCall.chat msgs ∈ (imageBranch env now cache p r).trace) :
    msgs = imageBranchMessages r p := by
  unfold imageBranch at h
  cases hc : env.chatCompletion (imageBranchMessages r p) with
  | error er =>
      simp [hc, branchCatch_trace] at h
      exact h
  | ok o =>
      cases o with
      | none =>
          simp [hc, branchCatch_trace] at h
          exact h
      | some ip =>
          simp [hc] at h
          cases hg : (generateImage env now cache ip).res with
          | ok b =>
              simp [hg] at h
              rcases h with h | h
              · exact h
              · exact absurd h (generateImage_no_chat env now cache ip msgs)
          | error er =>
              simp [hg, branchCatch_trace] at h
              rcases h with h | h
              · exact h
              · exact absurd h (generateImage_no_chat env now cache ip msgs)

theorem audioBranch_chat (env : Env) (now : Int) (cache : Cache) (p : String)
    (r : List Json) (msgs : List Json)
    (h : UpCall.chat msgs ∈ (audioBranch env now cache p r).trace) :
    msgs = audioBranchMessages r p := by
  unfold audioBranch at h
  cases hc : env.chatCompletion (audioBranchMessages r p) with
  | error er =>
      simp [hc, branchCatch_trace] at h
      exact h
  | ok o =>
      cases o with
      | none =>
          simp [hc, branchCatch_trace] at h
          exact h
      | some tc =>
          simp [hc] at h
          cases hg : (generateAudio env now cache tc).res with
          | ok b =>
              simp [hg] at h
              rcases h with h | h
              · exact h
              · exact absurd h (generateAudio_no_chat env now cache tc msgs)
          | error er =>
              simp [hg, branchCatch_trace] at h
              rcases h with h | h
              · exact h
              · exact absurd h (generateAudio_no_chat env now cache tc msgs)

theorem textBranch_chat (env : Env) (now : Int) (cache : Cache) (p : String)
    (r : List Json) (msgs : List Json)
    (h : UpCall.chat msgs ∈ (textBranch env now cache p r).trace) :
    msgs = textBranchMessages r p := by
  unfold textBranch at h
  cases hc : env.chatCompletion (textBranchMessages r p) with
  | error er =>
      simp [hc, outerCatch_trace] at h
      exact h
  | ok o =>
      cases o with
      | none =>
          simp [hc, outerCatch_trace] at h
          exact h
      | some c =>
          simp [hc] at h
          exact h

/-! ## Claim theorems -/

/-- C1: a prompt matching both the image action+subject patterns and the
audio action+subject patterns is classified as an image request, never an
audio request — the image branch is tested first, so the handler never
returns an audio envelope for such a prompt. -/
theorem image_intent_checked_first (p : String)
    (hI : isImageRequest p = true) (hA : isAudioRequest p = true) :
    classifyIntent p = Intent.image ∧
      ∀ env now cache h e,
        (generateText env now cache p h).res = Except.ok e → e.type ≠ "audio" := by
  constructor
  · simp [classifyIntent, hI]
  · intro env now cache h e hres
    unfold generateText at hres
    split at hres
    · rw [outerCatch_ok _ _ _ _ hres]
      decide
    · rw [if_pos hI] at hres
      rcases imageBranch_ok_type env now cache p _ e hres with ht | ht <;>
        simp [ht]

/-- C1 witness: a prompt matching all four patterns is classified image,
and a fully successful run returns an image envelope, not audio. -/
theorem image_intent_checked_first_witness :
    classifyIntent "Create a PICTURE with sound" = Intent.image ∧
      (generateText helloEnv 0 [] "Create a PICTURE with sound" (Json.arr [])).res =
          Except.ok ⟨"image", "Here's the generated image based on your request.",
            some "data:image/png;base64,I"⟩ ∧
      isImageRequest "Create a PICTURE with sound" = true ∧
      isAudioRequest "Create a PICTURE with sound" = true := by
  refine ⟨(image_intent_checked_first "Create a PICTURE with sound" (by decide) (by decide)).1,
    rfl, by decide, by decide⟩

/-- C2: a cache lookup under the same (kind, prompt) key less than five
minutes after the store returns the stored payload and makes no upstream
call; at or past five minutes the lookup misses and a fresh upstream call
is made, although the entry is still present in the map. -/
theorem cache_ttl_semantics (c : Cache) (p data : String) (t now : Int) (env : Env) :
    (now - t < CACHE_TTL →
      cacheLookup (cacheSet c (generateCacheKey p "image") ⟨data, t⟩)
          (generateCacheKey p "image") now = some data ∧
      (generateImage env now (cacheSet c (generateCacheKey p "image") ⟨data, t⟩) p).res =
          Except.ok data ∧
      (generateImage env now (cacheSet c (generateCacheKey p "image") ⟨data, t⟩) p).trace = []) ∧
    (CACHE_TTL ≤ now - t →
      cacheLookup (cacheSet c (generateCacheKey p "image") ⟨data, t⟩)
          (generateCacheKey p "image") now = none ∧
      (cacheGet (cacheSet c (generateCacheKey p "image") ⟨data, t⟩)
          (generateCacheKey p "image")).isSome = true ∧
      (generateImage env now (cacheSet c (generateCacheKey p "image") ⟨data, t⟩) p).trace =
          [UpCall.image p]) ∧
    (now - t < CACHE_TTL →
      cacheLookup (cacheSet c (generateCacheKey p "audio") ⟨data, t⟩)
          (generateCacheKey p "audio") now = some data ∧
      (generateAudio env now (cacheSet c (generateCacheKey p "audio") ⟨data, t⟩) p).res =
          Except.ok data ∧
      (generateAudio env now (cacheSet c (generateCacheKey p "audio") ⟨data, t⟩) p).trace = []) ∧
    (CACHE_TTL ≤ now - t →
      cacheLookup (cacheSet c (generateCacheKey p "audio") ⟨data, t⟩)
          (generateCacheKey p "audio") now = none ∧
      (cacheGet (cacheSet c (generateCacheKey p "audio") ⟨data, t⟩)
          (generateCacheKey p "audio")).isSome = true ∧
      (generateAudio env now (cacheSet c (generateCacheKey p "audio") ⟨data, t⟩) p).trace =
          [UpCall.speech (chooseVoice p) p]) := by
  have hgI := cacheGet_cacheSet_self c (generateCacheKey p "image") ⟨data, t⟩
  have hgA := cacheGet_cacheSet_self c (generateCacheKey p "audio") ⟨data, t⟩
  refine ⟨fun hlt => ?_, fun hge => ?_, fun hlt => ?_, fun hge => ?_⟩
  · have hl : cacheLookup (cacheSet c (generateCacheKey p "image") ⟨data, t⟩)
        (generateCacheKey p "image") now = some data := by
      unfold cacheLookup
      rw [hgI]
      simp [hlt]
    refine ⟨hl, ?_, ?_⟩ <;> simp [generateImage, hl]
  · have hl : cacheLookup (cacheSet c (generateCacheKey p "image") ⟨data, t⟩)
        (generateCacheKey p "image") now = none := by
      unfold cacheLookup
      rw [hgI]
      simp
      omega
    refine ⟨hl, by rw [hgI]; rfl, ?_⟩
    simp only [generateImage, hl]
    cases h2 : env.imagesGenerate p with
    | ok b => cases b <;> simp [h2]
    | error e => by_cases hrg : isRegionApiError e <;> simp [h2, hrg]
  · have hl : cacheLookup (cacheSet c (generateCacheKey p "audio") ⟨data, t⟩)
        (generateCacheKey p "audio") now = some data := by
      unfold cacheLookup
      rw [hgA]
      simp [hlt]
    refine ⟨hl, ?_, ?_⟩ <;> simp [generateAudio, hl]
  · have hl : cacheLookup (cacheSet c (generateCacheKey p "audio") ⟨data, t⟩)
        (generateCacheKey p "audio") now = none := by
      unfold cacheLookup
      rw [hgA]
      simp
      omega
    refine ⟨hl, by rw [hgA]; rfl, ?_⟩
    simp only [generateAudio, hl]
    cases h2 : env.speechCreate (chooseVoice p) p with
    | ok b => simp [h2]
    | error e => by_cases hrg : isRegionApiError e <;> simp [h2, hrg]

/-- C2 witness: a store at time 0 is a hit at 1000 ms and a miss (entry
still present, upstream call made) at 300000 ms, for both kinds. -/
theorem cache_ttl_semantics_witness :
    (cacheLookup (cacheSet [] (generateCacheKey "p" "image") ⟨"d", 0⟩)
        (generateCacheKey "p" "image") 1000 = some "d" ∧
      (generateImage throwingEnv 1000 (cacheSet [] (generateCacheKey "p" "image") ⟨"d", 0⟩)
          "p").trace = []) ∧
    (cacheLookup (cacheSet [] (generateCacheKey "p" "image") ⟨"d", 0⟩)
        (generateCacheKey "p" "image") 300000 = none ∧
      (cacheGet (cacheSet [] (generateCacheKey "p" "image") ⟨"d", 0⟩)
          (generateCacheKey "p" "image")).isSome = true ∧
      (generateImage throwingEnv 300000 (cacheSet [] (generateCacheKey "p" "image") ⟨"d", 0⟩)
          "p").trace = [UpCall.image "p"]) ∧
    (cacheLookup (cacheSet [] (generateCacheKey "p" "audio") ⟨"d", 0⟩)
        (generateCacheKey "p" "audio") 300000 = none ∧
      (generateAudio throwingEnv 300000 (cacheSet [] (generateCacheKey "p" "audio") ⟨"d", 0⟩)
          "p").trace = [UpCall.speech (chooseVoice "p") "p"]) := by
  have h1 := cache_ttl_semantics [] "p" "d" 0 1000 throwingEnv
  have h2 := cache_ttl_semantics [] "p" "d" 0 300000 throwingEnv
  refine ⟨⟨(h1.1 (by decide)).1, (h1.1 (by decide)).2.2⟩,
    ⟨(h2.2.1 (by decide)).1, (h2.2.1 (by decide)).2.1, (h2.2.1 (by decide)).2.2⟩,
    ⟨(h2.2.2.2 (by decide)).1, (h2.2.2.2 (by decide)).2.2⟩⟩

/-- C9: the synthetic voice is a total deterministic function of the
generated text alone — a question mark selects shimmer, otherwise a
length above 200 selects onyx, otherwise an exclamation mark selects
fable, otherwise nova — and the speech call of `generateAudio` always
uses that voice. -/
theorem voice_selection_deterministic (text : String) :
    (jsIncludes text "?" = true → chooseVoice text = Voice.shimmer) ∧
    (jsIncludes text "?" = false → 200 < text.length → chooseVoice text = Voice.onyx) ∧
    (jsIncludes text "?" = false → text.length ≤ 200 → jsIncludes text "!" = true →
      chooseVoice text = Voice.fable) ∧
    (jsIncludes text "?" = false → text.length ≤ 200 → jsIncludes text "!" = false →
      chooseVoice text = Voice.nova) ∧
    (∀ env now cache,
      (generateAudio env now cache text).trace = [] ∨
        (generateAudio env now cache text).trace = [UpCall.speech (chooseVoice text) text]) := by
  refine ⟨fun hq => ?_, fun hq hl => ?_, fun hq hl he => ?_, fun hq hl he => ?_,
    fun env now cache => generateAudio_trace env now cache text⟩
  · simp [chooseVoice, hq]
  · simp [chooseVoice, hq, hl]
  · simp [chooseVoice, hq, he]
    omega
  · simp [chooseVoice, hq, he]
    omega

set_option maxRecDepth 4096 in
/-- C9 witness: the four voice cases at concrete texts, and the speech
call of a concrete run uses the selected voice. -/
theorem voice_selection_deterministic_witness :
    chooseVoice "how are you?" = Voice.shimmer ∧
    chooseVoice (String.mk (List.replicate 201 'a')) = Voice.onyx ∧
    chooseVoice "wow!" = Voice.fable ∧
    chooseVoice "hello" = Voice.nova ∧
    (generateAudio helloEnv 0 [] "hello").trace =
      [UpCall.speech (chooseVoice "hello") "hello"] := by
  refine ⟨(voice_selection_deterministic "how are you?").1 (by decide),
    (voice_selection_deterministic (String.mk (List.replicate 201 'a'))).2.1 (by decide)
      (by decide),
    (voice_selection_deterministic "wow!").2.2.1 (by decide) (by decide) (by decide),
    (voice_selection_deterministic "hello").2.2.2.1 (by decide) (by decide) (by decide),
    rfl⟩

/-- C4: every message list sent to the upstream text-completion call is
the last-5 slice of the input history followed by the current user prompt
and, in the image/audio two-stage flows, one system message; the slice
has at most 5 entries and is a suffix of the history, so earlier entries
are never sent. -/
theorem history_trimmed_to_last_five (env : Env) (now : Int) (cache : Cache)
    (p : String) (h : List Json) :
    (∀ msgs, UpCall.chat msgs ∈ (generateText env now cache p (Json.arr h)).trace →
      msgs = imageBranchMessages (jsTakeLast 5 h) p ∨
        msgs = audioBranchMessages (jsTakeLast 5 h) p ∨
        msgs = textBranchMessages (jsTakeLast 5 h) p) ∧
    (jsTakeLast 5 h).length ≤ 5 ∧ List.IsSuffix (jsTakeLast 5 h) h := by
  refine ⟨?_, ?_, ?_⟩
  · intro msgs hm
    have hrh : recentHistoryOf (Json.arr h) = Except.ok (jsTakeLast 5 h) := rfl
    unfold generateText at hm
    split at hm
    next e heq =>
      rw [outerCatch_trace] at hm
      exact absurd hm (List.not_mem_nil _)
    next recent heq =>
      have hrec : recent = jsTakeLast 5 h :=
        (Except.ok.inj (hrh.symm.trans heq)).symm
      subst hrec
      by_cases hI : isImageRequest p
      · rw [if_pos hI] at hm
        exact Or.inl (imageBranch_chat env now cache p _ msgs hm)
      · rw [if_neg hI] at hm
        by_cases hA : isAudioRequest p
        · rw [if_pos hA] at hm
          exact Or.inr (Or.inl (audioBranch_chat env now cache p _ msgs hm))
        · rw [if_neg hA] at hm
          exact Or.inr (Or.inr (textBranch_chat env now cache p _ msgs hm))
  · simp [jsTakeLast]
    omega
  · exact List.drop_suffix _ _

/-- A 7-entry conversation history used by witnesses. -/
def hist7 : List Json :=
  [mkUserMsg "1", mkUserMsg "2", mkUserMsg "3", mkUserMsg "4", mkUserMsg "5",
    mkUserMsg "6", mkUserMsg "7"]

/-- The message list actually sent for a plain-text run over `hist7`. -/
def msgs7 : List Json := textBranchMessages (jsTakeLast 5 hist7) "hi"

/-- C4 witness: a 7-entry history is trimmed to its last 5 entries in the
message list of a concrete plain-text run. -/
theorem history_trimmed_to_last_five_witness :
    UpCall.chat msgs7 ∈ (generateText helloEnv 0 [] "hi" (Json.arr hist7)).trace ∧
    (msgs7 = imageBranchMessages (jsTakeLast 5 hist7) "hi" ∨
      msgs7 = audioBranchMessages (jsTakeLast 5 hist7) "hi" ∨
      msgs7 = textBranchMessages (jsTakeLast 5 hist7) "hi") ∧
    (jsTakeLast 5 hist7).length ≤ 5 ∧ List.IsSuffix (jsTakeLast 5 hist7) hist7 ∧
    msgs7 = [mkUserMsg "3", mkUserMsg "4", mkUserMsg "5", mkUserMsg "6",
      mkUserMsg "7", mkUserMsg "hi"] := by
  have hmem : UpCall.chat msgs7 ∈ (generateText helloEnv 0 [] "hi" (Json.arr hist7)).trace := by
    have ht : (generateText helloEnv 0 [] "hi" (Json.arr hist7)).trace = [UpCall.chat msgs7] := rfl
    rw [ht]
    exact List.Mem.head _
  have h := history_trimmed_to_last_five helloEnv 0 [] "hi" hist7
  exact ⟨hmem, h.1 msgs7 hmem, h.2.1, h.2.2, rfl⟩

/-- On an array history, `generateText` reduces to the branch selected by
the two intent tests. -/
theorem generateText_arr (env : Env) (now : Int) (cache : Cache) (p : String)
    (h : List Json) :
    generateText env now cache p (Json.arr h) =
      if isImageRequest p then imageBranch env now cache p (jsTakeLast 5 h)
      else if isAudioRequest p then audioBranch env now cache p (jsTakeLast 5 h)
      else textBranch env now cache p (jsTakeLast 5 h) := rfl

/-- C5: when a request is classified as image (or audio) intent and the
provider throws the region-restriction error during the media call, the
handler returns a successful envelope of type text whose content is the
region-error message, instead of propagating the failure. -/
theorem region_error_degrades_to_text (env : Env) (now : Int) (cache : Cache)
    (p : String) (h : List Json) (st : Option Nat) (cm ip : String) :
    (isImageRequest p = true →
      env.chatCompletion (imageBranchMessages (jsTakeLast 5 h) p) = Except.ok (some ip) →
      cacheLookup cache (generateCacheKey ip "image") now = none →
      env.imagesGenerate ip = Except.error (JsError.apiError st (some regionCode) cm) →
      (generateText env now cache p (Json.arr h)).res =
        Except.ok ⟨"text", ERROR_MESSAGES.REGION_ERROR, none⟩) ∧
    (isImageRequest p = false → isAudioRequest p = true →
      env.chatCompletion (audioBranchMessages (jsTakeLast 5 h) p) = Except.ok (some ip) →
      cacheLookup cache (generateCacheKey ip "audio") now = none →
      env.speechCreate (chooseVoice ip) ip =
        Except.error (JsError.apiError st (some regionCode) cm) →
      (generateText env now cache p (Json.arr h)).res =
        Except.ok ⟨"text", ERROR_MESSAGES.REGION_ERROR, none⟩) := by
  constructor
  · intro hI hc hl hi
    have himg : (generateImage env now cache ip).res =
        Except.error (JsError.jsError ERROR_MESSAGES.REGION_ERROR) := by
      simp only [generateImage, hl, hi]
      simp [isRegionApiError]
    rw [generateText_arr, if_pos hI]
    simp only [imageBranch, hc, himg]
    simp [branchCatch, isRegionErrorMessage]
  · intro hI hA hc hl hs
    have haud : (generateAudio env now cache ip).res =
        Except.error (JsError.jsError ERROR_MESSAGES.REGION_ERROR) := by
      simp only [generateAudio, hl, hs]
      simp [isRegionApiError]
    rw [generateText_arr, if_neg (by simp [hI]), if_pos hA]
    simp only [audioBranch, hc, haud]
    simp [branchCatch, isRegionErrorMessage]

/-- C5 witness: under a region-blocked provider, a concrete image-intent
request and a concrete audio-intent request both return the soft text
envelope with the region-error message. -/
theorem region_error_degrades_to_text_witness :
    (generateText regionBlockedEnv 0 [] "draw a picture of a cat" (Json.arr [])).res =
        Except.ok ⟨"text", ERROR_MESSAGES.REGION_ERROR, none⟩ ∧
    (generateText regionBlockedEnv 0 [] "say something with voice" (Json.arr [])).res =
        Except.ok ⟨"text", ERROR_MESSAGES.REGION_ERROR, none⟩ := by
  refine ⟨(region_error_degrades_to_text regionBlockedEnv 0 [] "draw a picture of a cat"
      [] (some 403) "blocked" "IP").1 (by decide) rfl rfl rfl,
    (region_error_degrades_to_text regionBlockedEnv 0 [] "say something with voice"
      [] (some 403) "blocked" "IP").2 (by decide) (by decide) rfl rfl rfl⟩

/-- `!message || typeof message !== 'string' || !message.trim()`: the
message field is absent, not a string, or blank after trimming. -/
def messageInvalid : Option FormVal → Bool
  | none => true
  | some FormVal.file => true
  | some (FormVal.str s) => jsTrim s = ""

/-- C6: a POST whose message field is missing, not a string, or empty
after trimming is answered with the invalid-request error and status 400,
with no upstream call and the cache unchanged. -/
theorem invalid_message_rejected (env : Env) (now : Int) (cache : Cache) (req : PostReq)
    (hk : req.apiKeyPresent = true) (hm : messageInvalid req.message = true) :
    POST env now cache req =
      ⟨RespBody.failure ERROR_MESSAGES.INVALID_REQUEST, 400, cache, []⟩ := by
  obtain ⟨ak, msg, hist⟩ := req
  simp only at hk hm
  subst hk
  cases msg with
  | none => simp [POST]
  | some fv =>
      cases fv with
      | file => simp [POST]
      | str s =>
          simp only [messageInvalid, decide_eq_true_eq] at hm
          simp [POST, hm]

/-- C6 witness: a whitespace-only message is rejected with 400, an empty
trace and an unchanged cache. -/
theorem invalid_message_rejected_witness :
    POST throwingEnv 0 [("image:k", ⟨"d", 0⟩)] ⟨true, some (FormVal.str "   "), none⟩ =
      ⟨RespBody.failure ERROR_MESSAGES.INVALID_REQUEST, 400, [("image:k", ⟨"d", 0⟩)], []⟩ :=
  invalid_message_rejected throwingEnv 0 [("image:k", ⟨"d", 0⟩)]
    ⟨true, some (FormVal.str "   "), none⟩ rfl (by decide)

/-- C7: a history field whose string value does not parse as JSON does
not abort the request — the handler behaves exactly as if no history had
been supplied. -/
theorem malformed_history_ignored (env : Env) (now : Int) (cache : Cache) (b : Bool)
    (mv : Option FormVal) (s msg : String) (hp : jsonParse s = Except.error msg) :
    POST env now cache ⟨b, mv, some (FormVal.str s)⟩ = POST env now cache ⟨b, mv, none⟩ := by
  have hh : parseHistory (some (FormVal.str s)) = Json.arr [] := by
    unfold parseHistory
    by_cases hs : s = ""
    · simp [hs]
    · simp [hs, hp]
  have hh2 : parseHistory (none : Option FormVal) = Json.arr [] := rfl
  unfold POST
  rw [hh, hh2]

/-- C7 witness: an unparseable history string yields the same response as
an absent history on a concrete request. -/
theorem malformed_history_ignored_witness :
    POST helloEnv 0 [] ⟨true, some (FormVal.str "hi"), some (FormVal.str "nope")⟩ =
      POST helloEnv 0 [] ⟨true, some (FormVal.str "hi"), none⟩ :=
  malformed_history_ignored helloEnv 0 [] true (some (FormVal.str "hi")) "nope"
    "Unexpected token in JSON" rfl

theorem outerCatch_cache (c : Cache) (tr : List UpCall) (e : JsError) :
    (outerCatch c tr e).cache = c := by
  unfold outerCatch; split <;> rfl

/-- The image-generation prompts among the recorded upstream calls. -/
def imageCallsOf (tr : List UpCall) : List String :=
  tr.filterMap (fun c => match c with | UpCall.image q => some q | _ => none)

/-- C3 counterexample: with a history-sensitive completion oracle, an
image request caches under the model-generated description, not under the
literal user prompt, and a second conversation with the same literal
prompt misses the cache and makes a fresh upstream image call. -/
theorem cache_key_not_literal_prompt :
    cacheGet (generateText historySensitiveEnv 0 [] "draw a picture of a cat"
        (Json.arr [])).cache (generateCacheKey "draw a picture of a cat" "image") = none ∧
    cacheGet (generateText historySensitiveEnv 0 [] "draw a picture of a cat"
        (Json.arr [])).cache (generateCacheKey "a gray cat" "image") =
      some ⟨"IMGDATA", 0⟩ ∧
    imageCallsOf (generateText historySensitiveEnv 1
        (generateText historySensitiveEnv 0 [] "draw a picture of a cat" (Json.arr [])).cache
        "draw a picture of a cat" (Json.arr [mkUserMsg "hi"])).trace = ["a black cat"] :=
  ⟨rfl, rfl, rfl⟩

/-- C3 amended: within one generation call the store and the lookup use
the same key (kind, text passed to the generator); for the image and
audio flows that text is the upstream completion's output (which sees the
trimmed history), not the literal user prompt, and plain-text responses
never touch the cache. -/
theorem cache_key_is_generator_text (env : Env) (now : Int) (cache : Cache)
    (p bi ba : String) :
    (env.imagesGenerate p = Except.ok (some bi) →
      cacheLookup cache (generateCacheKey p "image") now = none →
      (generateImage env now cache p).cache =
        cacheSet cache (generateCacheKey p "image") ⟨bi, now⟩) ∧
    (env.speechCreate (chooseVoice p) p = Except.ok ba →
      cacheLookup cache (generateCacheKey p "audio") now = none →
      (generateAudio env now cache p).cache =
        cacheSet cache (generateCacheKey p "audio") ⟨ba, now⟩) ∧
    (∀ h, isImageRequest p = false → isAudioRequest p = false →
      (generateText env now cache p (Json.arr h)).cache = cache) := by
  refine ⟨fun hi hl => ?_, fun hs hl => ?_, fun h hI hA => ?_⟩
  · simp only [generateImage, hl, hi]
  · simp only [generateAudio, hl, hs]
  · rw [generateText_arr, if_neg (by simp [hI]), if_neg (by simp [hA])]
    simp only [textBranch]
    cases hc : env.chatCompletion (textBranchMessages (jsTakeLast 5 h) p) with
    | error e => simp [hc, outerCatch_cache]
    | ok o => cases o <;> simp [hc, outerCatch_cache]

/-- C3 amended witness: the image and audio stores land under the
generator-text keys, and a plain-text run leaves the cache unchanged. -/
theorem cache_key_is_generator_text_witness :
    (generateImage historySensitiveEnv 5 [] "a gray cat").cache =
        cacheSet [] (generateCacheKey "a gray cat" "image") ⟨"IMGDATA", 5⟩ ∧
    (generateAudio historySensitiveEnv 5 [] "okay").cache =
        cacheSet [] (generateCacheKey "okay" "audio") ⟨"AUDDATA", 5⟩ ∧
    (generateText historySensitiveEnv 5 [] "hello" (Json.arr [])).cache = [] := by
  exact ⟨(cache_key_is_generator_text historySensitiveEnv 5 [] "a gray cat" "IMGDATA" "x").1
      rfl rfl,
    (cache_key_is_generator_text historySensitiveEnv 5 [] "okay" "x" "AUDDATA").2.1 rfl rfl,
    (cache_key_is_generator_text historySensitiveEnv 5 [] "hello" "x" "x").2.2 []
      (by decide) (by decide)⟩

/-- C8 counterexample: a non-API error thrown during image generation
(the media-error `Error`) reaches the client with its own message, not
the generic processing-failure message, though the status is 500. -/
theorem media_error_message_preserved :
    (generateText mediaFailEnv 0 [] "draw a picture" (Json.arr [])).res =
        Except.error (JsError.jsError ERROR_MESSAGES.MEDIA_ERROR) ∧
    POST mediaFailEnv 0 [] ⟨true, some (FormVal.str "draw a picture"), none⟩ =
      ⟨RespBody.failure ERROR_MESSAGES.MEDIA_ERROR, 500, [],
        [UpCall.chat (imageBranchMessages [] "draw a picture"), UpCall.image "a cat"]⟩ ∧
    ERROR_MESSAGES.MEDIA_ERROR ≠ ERROR_MESSAGES.PROCESSING_ERROR :=
  ⟨rfl, rfl, by decide⟩

/-- C8 amended: an error thrown during generation that is not a provider
API error yields HTTP 500 with the error's own message when the thrown
value is an `Error`; only a non-`Error` throwable falls back to the
generic processing-failure message (also with 500). -/
theorem non_api_error_mapping (env : Env) (now : Int) (cache : Cache) (m : String)
    (hist : Option FormVal) (em : String) (hm : jsTrim m ≠ "") :
    ((generateText env now cache m (parseHistory hist)).res =
        Except.error (JsError.jsError em) →
      POST env now cache ⟨true, some (FormVal.str m), hist⟩ =
        ⟨RespBody.failure em, 500,
          (generateText env now cache m (parseHistory hist)).cache,
          (generateText env now cache m (parseHistory hist)).trace⟩) ∧
    ((generateText env now cache m (parseHistory hist)).res =
        Except.error JsError.nonError →
      POST env now cache ⟨true, some (FormVal.str m), hist⟩ =
        ⟨RespBody.failure ERROR_MESSAGES.PROCESSING_ERROR, 500,
          (generateText env now cache m (parseHistory hist)).cache,
          (generateText env now cache m (parseHistory hist)).trace⟩) := by
  constructor <;> intro hres <;>
    simp [POST, hm, hres, handleGenerationError]

/-- C8 amended witness: the media-error `Error` surfaces with its own
message and 500; a non-`Error` throwable surfaces as the generic
processing-failure message and 500. -/
theorem non_api_error_mapping_witness :
    POST mediaFailEnv 0 [] ⟨true, some (FormVal.str "draw a picture"), none⟩ =
      ⟨RespBody.failure ERROR_MESSAGES.MEDIA_ERROR, 500,
        (generateText mediaFailEnv 0 [] "draw a picture" (parseHistory none)).cache,
        (generateText mediaFailEnv 0 [] "draw a picture" (parseHistory none)).trace⟩ ∧
    POST throwingEnv 0 [] ⟨true, some (FormVal.str "hi"), none⟩ =
      ⟨RespBody.failure ERROR_MESSAGES.PROCESSING_ERROR, 500,
        (generateText throwingEnv 0 [] "hi" (parseHistory none)).cache,
        (generateText throwingEnv 0 [] "hi" (parseHistory none)).trace⟩ :=
  ⟨(non_api_error_mapping mediaFailEnv 0 [] "draw a picture" none
      ERROR_MESSAGES.MEDIA_ERROR (by decide)).1 rfl,
    (non_api_error_mapping throwingEnv 0 [] "hi" none "x" (by decide)).2 rfl⟩

/-- Whether a JS value has a usable `slice` method (arrays and strings do). -/
def hasSlice : Json → Bool
  | Json.arr _ => true
  | Json.str _ => true
  | _ => false

/-- The `TypeError` message raised by `history.slice (-5)` on a value
without `slice`. -/
def sliceErrorMessage : Json → String
  | Json.null => nullSliceErrorMessage
  | _ => sliceTypeErrorMessage

/-- C10 counterexample: a history field holding valid JSON that is a
string is not rejected — `slice` exists on strings, the request proceeds
and can succeed with a generated reply (status 200), contrary to the
claim that every non-array JSON history yields a 500 error. -/
theorem json_string_history_succeeds :
    jsonParse "\"ab\"" = Except.ok (Json.str "ab") ∧
    (POST helloEnv 0 [] ⟨true, some (FormVal.str "hi"),
        some (FormVal.str "\"ab\"")⟩).status = 200 ∧
    (POST helloEnv 0 [] ⟨true, some (FormVal.str "hi"),
        some (FormVal.str "\"ab\"")⟩).body =
      RespBody.success ⟨"text", "hello there", none⟩ :=
  ⟨rfl, rfl, rfl⟩

/-- C10 amended: a history field parsing to valid JSON that is neither an
array nor a string is used unvalidated; the `slice` call on it throws a
`TypeError` and the endpoint answers with that error and status 500,
making no upstream call and leaving the cache unchanged. -/
theorem non_sliceable_history_500 (env : Env) (now : Int) (cache : Cache)
    (m s : String) (v : Json) (hm : jsTrim m ≠ "")
    (hp : jsonParse s = Except.ok v) (hv : hasSlice v = false) :
    recentHistoryOf v = Except.error (JsError.jsError (sliceErrorMessage v)) ∧
    POST env now cache ⟨true, some (FormVal.str m), some (FormVal.str s)⟩ =
      ⟨RespBody.failure (sliceErrorMessage v), 500, cache, []⟩ := by
  have hs : s ≠ "" := by
    intro h0
    rw [h0] at hp
    have he : jsonParse "" = Except.error "Unexpected token in JSON" := rfl
    rw [he] at hp
    cases hp
  have hh : parseHistory (some (FormVal.str s)) = v := by
    simp only [parseHistory]
    rw [if_neg hs, hp]
  have hr : recentHistoryOf v = Except.error (JsError.jsError (sliceErrorMessage v)) := by
    cases v <;> first
      | rfl
      | (simp [hasSlice] at hv)
  have hg : generateText env now cache m v =
      outerCatch cache [] (JsError.jsError (sliceErrorMessage v)) := by
    unfold generateText
    rw [hr]
  refine ⟨hr, ?_⟩
  simp [POST, hm, hh, hg, outerCatch, isRegionApiError, handleGenerationError]

/-- C10 amended witness: a boolean JSON history makes the endpoint answer
the slice `TypeError` with status 500, an empty trace and an unchanged
cache. -/
theorem non_sliceable_history_500_witness :
    recentHistoryOf (Json.bool true) =
        Except.error (JsError.jsError (sliceErrorMessage (Json.bool true))) ∧
    POST helloEnv 0 [] ⟨true, some (FormVal.str "hi"), some (FormVal.str "true")⟩ =
      ⟨RespBody.failure (sliceErrorMessage (Json.bool true)), 500, [], []⟩ :=
  non_sliceable_history_500 helloEnv 0 [] "hi" "true" (Json.bool true) (by decide) rfl rfl
